import Mathlib

/-!
Verification of the PostgreSQL wire-protocol proxy engine
(`decryptor/postgresql/pg_decryptor.go`) of the acra repository.

Bytes are modelled as `Nat` (values below 256 on the wire), byte strings as
`List Nat`.  Fallible Go code is modelled with `Except`/`Option`.  Collaborator
components that live outside the analysed file (registries, packet parsing,
the censor) are modelled from the specification and marked as such in their
doc comments.
-/

namespace Acra

/-- `binary.BigEndian.PutUint32`: four big-endian bytes of `n mod 2^32`. -/
def putUint32BE (n : Nat) : List Nat :=
  [n / 2 ^ 24 % 256, n / 2 ^ 16 % 256, n / 2 ^ 8 % 256, n % 256]

/-- Big-endian value of a 4-byte list (0 for other shapes). -/
def beVal32 : List Nat → Nat
  | [a, b, c, d] => a * 2 ^ 24 + b * 2 ^ 16 + c * 2 ^ 8 + d
  | _ => 0

/-- `ReadyForQuery` — 'Z' ReadyForQuery, 0 0 0 5 length, 'I' idle status
(pg_decryptor.go line 46). -/
def ReadyForQuery : List Nat := [90, 0, 0, 0, 5, 73]

/-- `TerminatePacket` sent by client to close connection with db
(pg_decryptor.go line 50). -/
def TerminatePacket : List Nat := [88, 0, 0, 0, 4]

/-- Write the 4-byte big-endian length `len - 1` into positions 1..4 of the
packet, as `binary.BigEndian.PutUint32(output[1:5], uint32(len(output)-1))`
does (pg_decryptor.go line 74). -/
def patchPgErrorLength (l : List Nat) : List Nat :=
  match l with
  | t :: _ :: _ :: _ :: _ :: rest => t :: (putUint32BE ((l.length - 1) % 2 ^ 32) ++ rest)
  | _ => l

/-- `NewPgError` (pg_decryptor.go lines 53–76): builds an ErrorResponse
packet: type byte 'E', a 4-byte length placeholder, severity field
`S ERROR\0`, SQLSTATE field `C42000\0`, message field `M<message>`, two
trailing zero bytes, then the length field is patched to `total - 1`. -/
def NewPgError (message : List Nat) : List Nat :=
  -- output[0] = 'E'; length placeholder output[1:5]
  let output : List Nat := [69, 0, 0, 0, 0]
  -- error severity "SERROR\0"
  let output := output ++ [83, 69, 82, 82, 79, 82, 0]
  -- "C42000" ++ 0   (42000 — syntax_error_or_access_rule_violation)
  let output := output ++ [67, 52, 50, 48, 48, 48] ++ [0]
  -- human readable message: 'M' ++ message
  let output := output ++ (77 :: message)
  -- null terminator of message and of the packet
  let output := output ++ [0, 0]
  patchPgErrorLength output

/-- `sendClientError` (pg_decryptor.go lines 536–552): the bytes written to
the client are the `NewPgError` packet followed by `ReadyForQuery`. -/
def sendClientErrorBytes (msg : List Nat) : List Nat :=
  NewPgError msg ++ ReadyForQuery

/-- `base.AcraCensorBlockedThisQuery`. Modelled from the spec: the message
used for censor denials is "AcraCensor blocked this query" (spec §8,
scenario 2); the constant lives in the `decryptor/base` package. -/
def AcraCensorBlockedThisQuery : List Nat :=
  [65, 99, 114, 97, 67, 101, 110, 115, 111, 114, 32,
   98, 108, 111, 99, 107, 101, 100, 32,
   116, 104, 105, 115, 32,
   113, 117, 101, 114, 121]

theorem NewPgError_eq (msg : List Nat) :
    NewPgError msg =
      69 :: (putUint32BE ((msg.length + 21) % 2 ^ 32) ++
        ([83, 69, 82, 82, 79, 82, 0] ++ ([67, 52, 50, 48, 48, 48, 0] ++
          ((77 :: msg) ++ [0, 0])))) := by
  simp only [NewPgError, patchPgErrorLength, putUint32BE]
  simp [List.length_append]

theorem NewPgError_length (msg : List Nat) :
    (NewPgError msg).length = msg.length + 22 := by
  simp [NewPgError_eq, putUint32BE]

theorem beVal32_putUint32BE (n : Nat) : beVal32 (putUint32BE n) = n % 2 ^ 32 := by
  simp only [putUint32BE, beVal32]
  omega

/-- C1: a censor-blocked query is answered with exactly one ErrorResponse
packet — type byte 'E', severity field `SERROR\0`, SQLSTATE field `C42000\0`,
message field `M<message>\0`, a trailing packet terminator `\0`, and a
big-endian length field equal to the total packet length minus the one type
byte — followed immediately by the canonical 6-byte ReadyForQuery packet
`{0x5A, 0, 0, 0, 5, 0x49}`. -/
theorem C1_censored_response_bytes (msg : List Nat) :
    sendClientErrorBytes msg =
      ((69 :: putUint32BE (((NewPgError msg).length - 1) % 2 ^ 32)) ++
        (([83, 69, 82, 82, 79, 82] ++ [0]) ++
         (([67, 52, 50, 48, 48, 48] ++ [0]) ++
          (((77 :: msg) ++ [0]) ++ [0])))) ++ [0x5A, 0, 0, 0, 5, 0x49]
    ∧ beVal32 ((NewPgError msg).drop 1 |>.take 4) =
        ((NewPgError msg).length - 1) % 2 ^ 32 := by
  constructor
  · show NewPgError msg ++ ReadyForQuery = _
    rw [NewPgError_length, NewPgError_eq]
    simp only [ReadyForQuery]
    have h : msg.length + 22 - 1 = msg.length + 21 := by omega
    rw [h]
    simp
  · rw [NewPgError_length, NewPgError_eq]
    simp only [List.drop_succ_cons, List.drop_zero]
    rw [List.take_append_of_le_length (by simp [putUint32BE])]
    have h : msg.length + 22 - 1 = msg.length + 21 := by omega
    rw [h]
    simp only [putUint32BE]
    simp [beVal32]
    omega

/-! ## Client-side protocol model (ClientReader pipeline) -/

/-- Result of `queryObserverManager.OnQuery`: either success with an
optional rewritten query (`none` = unchanged), a key-read error (fatal,
per `filesystem.IsKeyReadError`), or another error (logged, packet passes
unchanged). -/
inductive ObsQueryOutcome where
  | ok (newQuery : Option String)
  | keyReadError
  | otherError
deriving DecidableEq

/-- Result of `queryObserverManager.OnBind`: success with a changed flag,
a key-read error (fatal), or another error (logged, packet unchanged). -/
inductive ObsBindOutcome where
  | ok (changed : Bool)
  | keyReadError
  | otherError
deriving DecidableEq

/-- The out-of-scope collaborators the client-packet handlers consult:
the censor verdict (`censor.HandleQuery` returns nil), whether
`parser.Parse` succeeds on a query, and the query/bind observer outcomes. -/
structure Collaborators where
  censorAllows : String → Bool
  parseOk : String → Bool
  onQuery : String → ObsQueryOutcome
  onBind : ObsBindOutcome

/-- A prepared statement as registered by `registerPreparedStatement`:
`NewPreparedStatement(name, queryText, query)` keeps the name and the query
text (the parsed AST is opaque and not needed here). -/
structure PgPreparedStatement where
  name : String
  queryText : String
deriving DecidableEq

/-- The data of a Bind packet the handlers use: target portal name, source
statement name, and whether `GetParameters` succeeds on its payload. -/
structure BindPacket where
  portalName : String
  statementName : String
  paramsOk : Bool
deriving DecidableEq

/-- The data of an Execute packet: the referenced portal name. -/
structure ExecutePacket where
  portal : String
deriving DecidableEq

/-- A portal (cursor) as created by `NewPortal(bindPacket, preparedStatement)`
in `registerCursor`. -/
structure PgPortal where
  bind : BindPacket
  prepared : PgPreparedStatement
deriving DecidableEq

/-- Modelled from the spec (§4.3): registry lookup. `StatementByName`
returns the statement registered under the name, or an error when none is. -/
def StatementByName (reg : List (String × PgPreparedStatement)) (name : String) :
    Except String PgPreparedStatement :=
  match reg.lookup name with
  | some s => .ok s
  | none => .error "no prepared statement with given name"

/-- Modelled from the spec (§4.3): `AddStatement` fails if the name is
already present and non-empty; the unnamed statement (name = "") is always
replaceable. -/
def AddStatement (reg : List (String × PgPreparedStatement)) (s : PgPreparedStatement) :
    Except String (List (String × PgPreparedStatement)) :=
  if s.name ≠ "" ∧ (reg.lookup s.name).isSome then
    .error "prepared statement already registered"
  else
    .ok ((s.name, s) :: reg)

/-- Modelled from the spec (§4.3): `CursorByName` returns the portal
registered under the name, or an error when none is. -/
def CursorByName (reg : List (String × PgPortal)) (name : String) :
    Except String PgPortal :=
  match reg.lookup name with
  | some p => .ok p
  | none => .error "no cursor with given name"

/-- Modelled from the spec (§4.3): `AddCursor` fails if the portal name is
already present and non-empty; the unnamed portal is always replaceable. -/
def AddCursor (reg : List (String × PgPortal)) (p : PgPortal) :
    Except String (List (String × PgPortal)) :=
  if p.bind.portalName ≠ "" ∧ (reg.lookup p.bind.portalName).isSome then
    .error "cursor already registered"
  else
    .ok ((p.bind.portalName, p) :: reg)

/-- Modelled from the spec (§3, PendingQuery; §4.4): a pending query packet
is either a simple query (`newQueryPacket`) or an extended query
(`newExtendedQueryPacket` from the prepared statement, the Bind and the
Execute packet). -/
inductive queryPacket where
  | simple (sql : String)
  | extended (prepared : PgPreparedStatement) (bind : BindPacket) (execute : ExecutePacket)
deriving DecidableEq

/-- Modelled from the spec (§3, PendingQuery): the SQL text a pending query
packet is attributed to — the simple query text, or the prepared statement's
query text for an extended query. -/
def queryPacket.GetSQLQuery : queryPacket → String
  | .simple sql => sql
  | .extended prepared _ _ => prepared.queryText

/-- Modelled from the spec (§4.4): `pendingQueryPackets.Add` enqueues at the
FIFO tail. -/
def pendingAdd (q : List queryPacket) (p : queryPacket) : List queryPacket :=
  q ++ [p]

/-- The per-session mutable state the client-side handlers touch: the
prepared-statement registry, the cursor (portal) registry and the
pending-query FIFO. -/
structure SessionState where
  statements : List (String × PgPreparedStatement)
  cursors : List (String × PgPortal)
  pendingQueryPackets : List queryPacket
deriving DecidableEq

/-- Modelled from the spec (§4.2): the classification of a client packet by
`PgProtocolState.HandleClientPacket` / `LastPacketType`, with the parsed
content each `handleClientPacket` branch extracts from it. -/
inductive ClientPacket where
  | simpleQuery (sql : String)
  | parse (name : String) (sql : String) (paramOIDs : List Nat)
  | bind (portal : String) (statement : String) (paramsOk : Bool)
  | execute (portal : String)
  | terminate
  | other
deriving DecidableEq

/-- `handleQueryPacket` (pg_decryptor.go lines 413–480) applied to the query
text of a Parse or SimpleQuery packet: if the censor blocks, return
`(true, _)` with no error; otherwise consult the query observers — a
key-read error is fatal, any other observer error is logged and the packet
proceeds unchanged, and a rewritten query replaces the packet text
(`packet.ReplaceQuery`). Returns `(censored, effective query text)`. -/
def handleQueryPacket (c : Collaborators) (query : String) :
    Except String (Bool × String) :=
  if c.censorAllows query then
    match c.onQuery query with
    | .keyReadError => .error "key read error"
    | .otherError => .ok (false, query)
    | .ok none => .ok (false, query)
    | .ok (some newQuery) => .ok (false, newQuery)
  else
    -- AcraCensor blocked query: return true, nil
    .ok (true, query)

/-- `registerPreparedStatement` (pg_decryptor.go lines 1018–1038): parse the
query text (an error is fatal to the handler), then `AddStatement`. -/
def registerPreparedStatement (c : Collaborators) (st : SessionState)
    (name queryText : String) : Except String SessionState :=
  if c.parseOk queryText then
    match AddStatement st.statements ⟨name, queryText⟩ with
    | .error e => .error e
    | .ok statements => .ok { st with statements := statements }
  else
    .error "cant parse sql from parse packet"

/-- `registerCursor` (pg_decryptor.go lines 1076–1097): look up the prepared
statement named by the Bind — an error is returned to the caller — then
`AddCursor` for `NewPortal(bindPacket, preparedStatement)`. -/
def registerCursor (st : SessionState) (bind : BindPacket) :
    Except String SessionState :=
  match StatementByName st.statements bind.statementName with
  | .error e => .error e
  | .ok prepared =>
    match AddCursor st.cursors ⟨bind, prepared⟩ with
    | .error e => .error e
    | .ok cursors => .ok { st with cursors := cursors }

/-- `handleBindPacket` (pg_decryptor.go lines 482–534): `registerCursor`
first (its error aborts the handler), then a tolerated statement lookup,
parameter extraction and the bind observers — whose non-key-read failures
let the packet through unchanged. -/
def handleBindPacket (c : Collaborators) (st : SessionState) (bind : BindPacket) :
    Except String (Bool × SessionState) :=
  match registerCursor st bind with
  | .error e => .error e
  | .ok st1 =>
    -- There must be previously registered prepared statement with requested
    -- name; if there is not, the packet is let through as is (lines 499–504).
    match StatementByName st1.statements bind.statementName with
    | .error _ => .ok (false, st1)
    | .ok _statement =>
      if bind.paramsOk then
        match c.onBind with
        | .keyReadError => .error "key read error"
        | .otherError => .ok (false, st1)
        | .ok _changed => .ok (false, st1)
      else
        .ok (false, st1)

/-- `handleClientPacket` (pg_decryptor.go lines 333–411): dispatch on the
classified packet type. Returns `(censored, new session state)` or a fatal
error. -/
def handleClientPacket (c : Collaborators) (st : SessionState) (p : ClientPacket) :
    Except String (Bool × SessionState) :=
  match p with
  | .execute portal =>
    match CursorByName st.cursors portal with
    | .error e => .error e
    | .ok cursor =>
      let qp := queryPacket.extended cursor.prepared cursor.bind ⟨portal⟩
      .ok (false, { st with
        pendingQueryPackets := pendingAdd st.pendingQueryPackets qp })
  | .parse name sql _paramOIDs =>
    match handleQueryPacket c sql with
    | .error e => .error e
    | .ok (censored, newSql) =>
      if censored then .ok (true, st)
      else
        match registerPreparedStatement c st name newSql with
        | .error e => .error e
        | .ok st1 =>
          -- replaceOIDsInParsePackets rewrites parameter OIDs in the packet
          -- payload only; it does not touch the session state.
          .ok (false, st1)
  | .simpleQuery sql =>
    -- the pending query packet is enqueued before the censor check
    -- (lines 387–395)
    let st1 := { st with
      pendingQueryPackets := pendingAdd st.pendingQueryPackets (.simple sql) }
    match handleQueryPacket c sql with
    | .error e => .error e
    | .ok (censored, _) => .ok (censored, st1)
  | .bind portal statement paramsOk =>
    handleBindPacket c st ⟨portal, statement, paramsOk⟩
  | .terminate => .ok (false, st)
  | .other => .ok (false, st)

/-- Outcome of one iteration of the `ProxyClientConnection` loop: `continue`
with the next packet, or return from the goroutine. -/
inductive LoopOutcome where
  | continueLoop
  | stop
deriving DecidableEq

/-- What one `ProxyClientConnection` iteration produced: the new session
state, the packet forwarded to the database (`packet.sendPacket`), the
bytes synthesized to the client, and whether the loop continues. -/
structure ClientIterationResult where
  state : SessionState
  forwardedToServer : Option ClientPacket
  bytesToClient : List Nat
  outcome : LoopOutcome
deriving DecidableEq

/-- One iteration of the `ProxyClientConnection` loop body
(pg_decryptor.go lines 294–329): handle the packet; on error push it and
return; if censored, send the synthesized error to the client and continue
without forwarding; otherwise forward the packet and stop only on a
Terminate packet. -/
def clientIteration (c : Collaborators) (st : SessionState) (p : ClientPacket) :
    ClientIterationResult :=
  match handleClientPacket c st p with
  | .error _ => ⟨st, none, [], .stop⟩
  | .ok (censored, st1) =>
    if censored then
      ⟨st1, none, sendClientErrorBytes AcraCensorBlockedThisQuery, .continueLoop⟩
    else
      ⟨st1, some p, [],
        match p with
        | .terminate => .stop
        | _ => .continueLoop⟩

/-- A collaborator assignment that allows and succeeds everywhere. -/
def allowAllCollaborators : Collaborators :=
  ⟨fun _ => true, fun _ => true, fun _ => .ok none, .ok false⟩

/-- A collaborator assignment whose censor denies every query. -/
def denyAllCollaborators : Collaborators :=
  ⟨fun _ => false, fun _ => true, fun _ => .ok none, .ok false⟩

/-- The empty session state of a fresh connection. -/
def emptySessionState : SessionState := ⟨[], [], []⟩

/-- C2: a client query packet (SimpleQuery or Parse) denied by the censor is
not forwarded to the database, the client receives exactly the synthesized
ErrorResponse plus the 6-byte ReadyForQuery, and the ClientReader loop
continues instead of closing the session. -/
theorem C2_censor_denial_not_forwarded (c : Collaborators) (st : SessionState)
    (p : ClientPacket) (sql : String)
    (hq : p = .simpleQuery sql ∨ ∃ name oids, p = .parse name sql oids)
    (hdeny : c.censorAllows sql = false) :
    (clientIteration c st p).forwardedToServer = none ∧
    (clientIteration c st p).bytesToClient =
      NewPgError AcraCensorBlockedThisQuery ++ ReadyForQuery ∧
    (clientIteration c st p).outcome = .continueLoop := by
  rcases hq with h | ⟨name, oids, h⟩ <;> subst h <;>
    simp [clientIteration, handleClientPacket, handleQueryPacket, hdeny,
      sendClientErrorBytes]

/-- Witness for C2 at a concrete denied query. -/
theorem C2_censor_denial_not_forwarded_witness :
    (clientIteration denyAllCollaborators emptySessionState
        (.simpleQuery "DROP TABLE users")).forwardedToServer = none ∧
    (clientIteration denyAllCollaborators emptySessionState
        (.simpleQuery "DROP TABLE users")).bytesToClient =
      NewPgError AcraCensorBlockedThisQuery ++ ReadyForQuery ∧
    (clientIteration denyAllCollaborators emptySessionState
        (.simpleQuery "DROP TABLE users")).outcome = .continueLoop :=
  C2_censor_denial_not_forwarded denyAllCollaborators emptySessionState
    _ "DROP TABLE users" (Or.inl rfl) rfl

/-- C3 (code bug): a Bind packet whose statement name is absent from the
prepared-statement registry makes `handleClientPacket` fail — the error of
`registerCursor`'s statement lookup aborts the handler — so the iteration
forwards nothing and stops the session, contrary to the pass-through the
code's own comment describes. -/
theorem C3_unknown_bind_statement_errors :
    handleClientPacket allowAllCollaborators emptySessionState
        (.bind "p1" "s1" true) =
      .error "no prepared statement with given name" ∧
    clientIteration allowAllCollaborators emptySessionState
        (.bind "p1" "s1" true) =
      ⟨emptySessionState, none, [], .stop⟩ := by
  constructor <;> rfl

/-- The query text effectively carried by a packet after the query observers
ran: the rewritten text if the observers changed it, the original otherwise. -/
def effectiveQuery (c : Collaborators) (q : String) : String :=
  match c.onQuery q with
  | .ok (some t) => t
  | _ => q

theorem handleQueryPacket_allowed (c : Collaborators) (q : String)
    (hallow : c.censorAllows q = true) (hq : c.onQuery q ≠ .keyReadError) :
    handleQueryPacket c q = .ok (false, effectiveQuery c q) := by
  unfold handleQueryPacket effectiveQuery
  rw [hallow]
  cases hco : c.onQuery q with
  | ok newQuery => cases newQuery <;> simp
  | keyReadError => exact absurd hco hq
  | otherError => simp

/-- C6: after `Parse(name=X)`, `Bind(portal=Y, statement=X)` and
`Execute(portal=Y)` the Execute adds exactly one extended entry to the
pending-query queue, and that entry's SQL text equals the query text of the
prepared statement registered under X; an Execute naming a portal absent
from the cursor registry instead makes the handler return an error that
terminates the session. -/
theorem C6_parse_bind_execute_queue (c : Collaborators) (st0 : SessionState)
    (X Y text : String) (oids : List Nat)
    (hallow : c.censorAllows text = true)
    (hq : c.onQuery text ≠ .keyReadError)
    (hparse : ∀ s, c.parseOk s = true)
    (hb : c.onBind ≠ .keyReadError)
    (hX : st0.statements.lookup X = none)
    (hY : st0.cursors.lookup Y = none) :
    (∃ st1 st2 st3,
      handleClientPacket c st0 (.parse X text oids) = .ok (false, st1) ∧
      handleClientPacket c st1 (.bind Y X true) = .ok (false, st2) ∧
      handleClientPacket c st2 (.execute Y) = .ok (false, st3) ∧
      st1.pendingQueryPackets = st0.pendingQueryPackets ∧
      st2.pendingQueryPackets = st0.pendingQueryPackets ∧
      (∃ stmt qp,
        StatementByName st2.statements X = .ok stmt ∧
        st3.pendingQueryPackets = st2.pendingQueryPackets ++ [qp] ∧
        qp.GetSQLQuery = stmt.queryText)) ∧
    (∀ (st : SessionState) (Z : String), st.cursors.lookup Z = none →
      ∃ e, handleClientPacket c st (.execute Z) = .error e) := by
  constructor
  · have hstep1 : handleClientPacket c st0 (.parse X text oids) =
        .ok (false, { st0 with
          statements := (X, ⟨X, effectiveQuery c text⟩) :: st0.statements }) := by
      simp only [handleClientPacket, handleQueryPacket_allowed c text hallow hq,
        registerPreparedStatement, hparse, if_true, AddStatement, hX]
      simp
    have hlook1 : List.lookup X
        ((X, (⟨X, effectiveQuery c text⟩ : PgPreparedStatement)) :: st0.statements) =
        some ⟨X, effectiveQuery c text⟩ := by
      simp [List.lookup]
    have hstep2 : handleClientPacket c
        { st0 with statements := (X, ⟨X, effectiveQuery c text⟩) :: st0.statements }
        (.bind Y X true) =
        .ok (false, { st0 with
          statements := (X, ⟨X, effectiveQuery c text⟩) :: st0.statements,
          cursors := (Y, ⟨⟨Y, X, true⟩, ⟨X, effectiveQuery c text⟩⟩) :: st0.cursors }) := by
      simp only [handleClientPacket, handleBindPacket, registerCursor,
        StatementByName, hlook1, AddCursor, hY]
      simp only [Option.isSome_none, and_false, if_neg, Bool.false_eq_true,
        not_false_iff, ite_false]
      cases hob : c.onBind with
      | ok changed => simp
      | keyReadError => exact absurd hob hb
      | otherError => simp
    have hlook2 : List.lookup Y
        ((Y, (⟨⟨Y, X, true⟩, ⟨X, effectiveQuery c text⟩⟩ : PgPortal)) :: st0.cursors) =
        some ⟨⟨Y, X, true⟩, ⟨X, effectiveQuery c text⟩⟩ := by
      simp [List.lookup]
    have hstep3 : handleClientPacket c
        { st0 with
          statements := (X, ⟨X, effectiveQuery c text⟩) :: st0.statements,
          cursors := (Y, ⟨⟨Y, X, true⟩, ⟨X, effectiveQuery c text⟩⟩) :: st0.cursors }
        (.execute Y) =
        .ok (false, { st0 with
          statements := (X, ⟨X, effectiveQuery c text⟩) :: st0.statements,
          cursors := (Y, ⟨⟨Y, X, true⟩, ⟨X, effectiveQuery c text⟩⟩) :: st0.cursors,
          pendingQueryPackets := pendingAdd st0.pendingQueryPackets
            (.extended ⟨X, effectiveQuery c text⟩ ⟨Y, X, true⟩ ⟨Y⟩) }) := by
      simp only [handleClientPacket, CursorByName, hlook2]
    exact ⟨_, _, _, hstep1, hstep2, hstep3, rfl, rfl,
      ⟨X, effectiveQuery c text⟩,
      .extended ⟨X, effectiveQuery c text⟩ ⟨Y, X, true⟩ ⟨Y⟩,
      by simp only [StatementByName, hlook1], rfl, rfl⟩
  · intro st Z hZ
    refine ⟨"no cursor with given name", ?_⟩
    simp only [handleClientPacket, CursorByName, hZ]

/-- Witness for C6 at concrete names and query text. -/
theorem C6_parse_bind_execute_queue_witness :
    ((∃ st1 st2 st3,
      handleClientPacket allowAllCollaborators emptySessionState
          (.parse "s1" "SELECT 1" []) = .ok (false, st1) ∧
      handleClientPacket allowAllCollaborators st1 (.bind "p1" "s1" true) =
        .ok (false, st2) ∧
      handleClientPacket allowAllCollaborators st2 (.execute "p1") =
        .ok (false, st3) ∧
      st1.pendingQueryPackets = emptySessionState.pendingQueryPackets ∧
      st2.pendingQueryPackets = emptySessionState.pendingQueryPackets ∧
      (∃ stmt qp,
        StatementByName st2.statements "s1" = .ok stmt ∧
        st3.pendingQueryPackets = st2.pendingQueryPackets ++ [qp] ∧
        qp.GetSQLQuery = stmt.queryText)) ∧
    (∀ (st : SessionState) (Z : String), st.cursors.lookup Z = none →
      ∃ e, handleClientPacket allowAllCollaborators st (.execute Z) = .error e)) :=
  C6_parse_bind_execute_queue allowAllCollaborators emptySessionState
    "s1" "p1" "SELECT 1" [] rfl (by decide) (fun _ => rfl) (by decide) rfl rfl

/-! ## Server-side protocol model (ServerReader pipeline) -/

/-- `ReadyForQueryMessageType` = 'Z' (pg_decryptor.go line 100). -/
def ReadyForQueryMessageType : Nat := 90

/-- `RowDescriptionType` = 'T' (pg_decryptor.go line 101). -/
def RowDescriptionType : Nat := 84

/-- `ParameterDescriptionType` = 't' (pg_decryptor.go line 102). -/
def ParameterDescriptionType : Nat := 116

/-- A framed regular-phase packet: message type byte plus payload. On the
wire it is the type byte, a 4-byte big-endian length that counts itself and
the payload, then the payload. -/
structure DbPacket where
  msgType : Nat
  payload : List Nat
deriving DecidableEq

/-- The wire encoding of a framed packet. -/
def encodePacket (p : DbPacket) : List Nat :=
  p.msgType :: (putUint32BE (4 + p.payload.length) ++ p.payload)

/-- `readMessageType`: read exactly one byte from the stream. -/
def readMessageType : List Nat → Except String (Nat × List Nat)
  | [] => .error "eof reading message type"
  | b :: rest => .ok (b, rest)

/-- Modelled from the spec (§3, Packet; §4.1): `readData` — read the 4-byte
big-endian length (which includes itself), then exactly `length - 4`
payload bytes; a short stream or a length below 4 is a framing error. -/
def readData (s : List Nat) : Except String (List Nat × List Nat) :=
  match s with
  | l1 :: l2 :: l3 :: l4 :: rest =>
    let n := beVal32 [l1, l2, l3, l4]
    if 4 ≤ n ∧ n - 4 ≤ rest.length then
      .ok (rest.take (n - 4), rest.drop (n - 4))
    else .error "framing error"
  | _ => .error "eof reading length"

/-- Modelled from the spec (§4.1): `ReadPacket` — a framed regular-phase
read: the message type byte followed by `readData`. -/
def ReadPacket (s : List Nat) : Except String (DbPacket × List Nat) :=
  match readMessageType s with
  | .error e => .error e
  | .ok (b, s1) =>
    match readData s1 with
    | .error e => .error e
    | .ok (payload, s2) => .ok (⟨b, payload⟩, s2)

/-- The outcome of `handleDatabasePacket` as the `ProxyDatabaseConnection`
loop distinguishes it (pg_decryptor.go lines 704–720): success, a
`*base.EncodingError` carrying a message, or any other (fatal) error. -/
inductive HandlerOutcome where
  | ok
  | encodingError (msg : List Nat)
  | fatal
deriving DecidableEq

/-- `databaseHandlerState` (pg_decryptor.go lines 117–130). -/
inductive databaseHandlerState where
  | stateFirstPacket
  | stateServe
  | stateSkipResponse
deriving DecidableEq

/-- What one iteration of the `ProxyDatabaseConnection` loop did: the next
state, the bytes written to the client, whether the ClientReader goroutine
was stopped and restarted, whether the TLS upgrade ran, whether
`handleDatabasePacket` ran on the packet, and whether the loop aborted
(pushed an error and returned). -/
structure DbStepResult where
  nextState : databaseHandlerState
  toClient : List Nat
  restartedClientReader : Bool
  tlsUpgrade : Bool
  handlerRan : Bool
  aborted : Bool
deriving DecidableEq

/-- One iteration of the `ProxyDatabaseConnection` loop
(pg_decryptor.go lines 688–825), parameterized by the outcome the database
packet handler returns on each packet and by the success of the
ClientReader stop (`stopOk`, 'N' branch) and of the whole TLS upgrade
(`sslOk`, 'S' branch). Consumes bytes from the server stream; returns the
step result and the unconsumed remainder. -/
def dbStep (handle : DbPacket → HandlerOutcome) (stopOk sslOk : Bool)
    (state : databaseHandlerState) (s : List Nat) :
    Except String (DbStepResult × List Nat) :=
  match state with
  | .stateServe =>
    match ReadPacket s with
    | .error e => .error e
    | .ok (pkt, rest) =>
      match handle pkt with
      | .encodingError m =>
        -- send the client a synthesized error, then drain the response
        .ok (⟨.stateSkipResponse, sendClientErrorBytes m, false, false,
              true, false⟩, rest)
      | .fatal =>
        .ok (⟨.stateServe, [], false, false, true, true⟩, rest)
      | .ok =>
        .ok (⟨.stateServe, encodePacket pkt, false, false, true, false⟩, rest)
  | .stateFirstPacket =>
    -- only the type byte is read; `state = stateServe` is assigned before
    -- the branch (line 742)
    match readMessageType s with
    | .error e => .error e
    | .ok (b, rest) =>
      if b = 78 then
        -- IsSSLRequestDeny ('N'): reload the client goroutine, forward the byte
        if stopOk then
          .ok (⟨.stateServe, [b], true, false, false, false⟩, rest)
        else
          .ok (⟨.stateServe, [], false, false, false, true⟩, rest)
      else if b = 83 then
        -- IsSSLRequestAllowed ('S'): TLS dance, then restart the client goroutine
        if sslOk then
          .ok (⟨.stateServe, [], true, true, false, false⟩, rest)
        else
          .ok (⟨.stateServe, [], false, true, false, true⟩, rest)
      else
        -- any other byte: read the rest of a full packet and forward it
        match readData rest with
        | .error e => .error e
        | .ok (payload, rest2) =>
          .ok (⟨.stateServe, encodePacket ⟨b, payload⟩, false, false,
                false, false⟩, rest2)
  | .stateSkipResponse =>
    match ReadPacket s with
    | .error e => .error e
    | .ok (pkt, rest) =>
      if pkt.msgType = ReadyForQueryMessageType then
        -- process the ReadyForQuery packet to reset the protocol state
        match handle pkt with
        | .ok => .ok (⟨.stateServe, [], false, false, true, false⟩, rest)
        | _ => .ok (⟨.stateServe, [], false, false, true, true⟩, rest)
      else
        .ok (⟨.stateSkipResponse, [], false, false, false, false⟩, rest)

/-- C4: in state Serve an `EncodingError` from the packet handler makes the
proxy send the client the synthesized ErrorResponse plus ReadyForQuery and
switch to SkipResponse; in SkipResponse every non-ReadyForQuery packet is
discarded without being forwarded and without running the handler, and a
ReadyForQuery packet has the handler run on it and returns the machine to
Serve. -/
theorem C4_skip_response_machine (handle : DbPacket → HandlerOutcome)
    (stopOk sslOk : Bool) (s : List Nat) (pkt : DbPacket) (rest : List Nat)
    (hread : ReadPacket s = .ok (pkt, rest)) :
    (∀ m, handle pkt = .encodingError m →
      dbStep handle stopOk sslOk .stateServe s =
        .ok (⟨.stateSkipResponse, NewPgError m ++ ReadyForQuery, false, false,
              true, false⟩, rest)) ∧
    (pkt.msgType ≠ ReadyForQueryMessageType →
      dbStep handle stopOk sslOk .stateSkipResponse s =
        .ok (⟨.stateSkipResponse, [], false, false, false, false⟩, rest)) ∧
    (pkt.msgType = ReadyForQueryMessageType → handle pkt = .ok →
      dbStep handle stopOk sslOk .stateSkipResponse s =
        .ok (⟨.stateServe, [], false, false, true, false⟩, rest)) := by
  refine ⟨fun m hm => ?_, fun hne => ?_, fun hz hok => ?_⟩
  · simp only [dbStep, hread, hm, sendClientErrorBytes]
  · simp only [dbStep, hread, if_neg hne]
  · simp only [dbStep, hread, if_pos hz, hok]

/-- Witness for C4 at a concrete stream and handler. -/
theorem C4_skip_response_machine_witness :
    (∀ m, (fun p : DbPacket => HandlerOutcome.encodingError p.payload) ⟨67, [7]⟩ =
        .encodingError m →
      dbStep (fun p => .encodingError p.payload) true true .stateServe
          [67, 0, 0, 0, 5, 7] =
        .ok (⟨.stateSkipResponse, NewPgError m ++ ReadyForQuery, false, false,
              true, false⟩, [])) ∧
    ((DbPacket.mk 67 [7]).msgType ≠ ReadyForQueryMessageType →
      dbStep (fun p => .encodingError p.payload) true true .stateSkipResponse
          [67, 0, 0, 0, 5, 7] =
        .ok (⟨.stateSkipResponse, [], false, false, false, false⟩, [])) ∧
    ((DbPacket.mk 67 [7]).msgType = ReadyForQueryMessageType →
      (fun p : DbPacket => HandlerOutcome.encodingError p.payload) ⟨67, [7]⟩ = .ok →
      dbStep (fun p => .encodingError p.payload) true true .stateSkipResponse
          [67, 0, 0, 0, 5, 7] =
        .ok (⟨.stateServe, [], false, false, true, false⟩, [])) :=
  C4_skip_response_machine (fun p => .encodingError p.payload) true true
    [67, 0, 0, 0, 5, 7] ⟨67, [7]⟩ [] rfl

/-- C8: in state FirstPacket exactly the type byte is read before the
branch — on 'S' the TLS upgrade runs and on 'N' the ClientReader is stopped
and restarted and the single byte is forwarded, in both cases with the rest
of the stream untouched (no length is read) — while any other byte makes
the proxy read the remainder of a full framed packet with that byte as the
message type and forward it; every branch leaves the machine in state
Serve. -/
theorem C8_first_packet_branches (handle : DbPacket → HandlerOutcome)
    (b : Nat) (rest : List Nat) :
    (b = 83 →
      dbStep handle true true .stateFirstPacket (b :: rest) =
        .ok (⟨.stateServe, [], true, true, false, false⟩, rest)) ∧
    (b = 78 →
      dbStep handle true true .stateFirstPacket (b :: rest) =
        .ok (⟨.stateServe, [78], true, false, false, false⟩, rest)) ∧
    (b ≠ 83 → b ≠ 78 → ∀ payload rest2, readData rest = .ok (payload, rest2) →
      dbStep handle true true .stateFirstPacket (b :: rest) =
        .ok (⟨.stateServe, encodePacket ⟨b, payload⟩, false, false,
              false, false⟩, rest2)) := by
  refine ⟨fun hS => ?_, fun hN => ?_, fun hnS hnN payload rest2 hrd => ?_⟩
  · subst hS
    simp [dbStep, readMessageType]
  · subst hN
    simp [dbStep, readMessageType]
  · simp only [dbStep, readMessageType, if_neg hnN, if_neg hnS, hrd]

/-- Witness for C8 at concrete first bytes and stream. -/
theorem C8_first_packet_branches_witness :
    (dbStep (fun _ => .ok) true true .stateFirstPacket (83 :: [9, 9]) =
      .ok (⟨.stateServe, [], true, true, false, false⟩, [9, 9])) ∧
    (dbStep (fun _ => .ok) true true .stateFirstPacket (78 :: [9, 9]) =
      .ok (⟨.stateServe, [78], true, false, false, false⟩, [9, 9])) ∧
    (dbStep (fun _ => .ok) true true .stateFirstPacket (82 :: [0, 0, 0, 5, 3]) =
      .ok (⟨.stateServe, encodePacket ⟨82, [3]⟩, false, false, false, false⟩,
        [])) :=
  ⟨(C8_first_packet_branches (fun _ => .ok) 83 [9, 9]).1 rfl,
   (C8_first_packet_branches (fun _ => .ok) 78 [9, 9]).2.1 rfl,
   (C8_first_packet_branches (fun _ => .ok) 82 [0, 0, 0, 5, 3]).2.2
     (by decide) (by decide) [3] [] rfl⟩

/-! ## RowDescription / ParameterDescription OID rewrites -/

/-- A column encryption setting as the OID rewrites consult it:
`config.HasTypeAwareSupport(setting)` and, when `mapEncryptedTypeToOID`
recognizes `setting.GetDBDataTypeID()`, the replacement OID. -/
structure ColumnEncryptionSetting where
  typeAware : Bool
  mappedOID : Option Nat
deriving DecidableEq

/-- One step of the OID-rewrite loops: the new OID for a field and whether
it changed (pg_decryptor.go lines 875–887 and 921–933). -/
def rewriteField (setting : Option ColumnEncryptionSetting) (oid : Nat) : Nat × Bool :=
  match setting with
  | none => (oid, false)
  | some s =>
    if s.typeAware then
      match s.mappedOID with
      | some newOID => (newOID, true)
      | none => (oid, false)
    else (oid, false)

/-- `handleRowDescription` (pg_decryptor.go lines 898–942): with no client
session in the context, no registered settings, an unparsable RowDescription
payload, or a column-count mismatch, the handler returns success and leaves
the packet untouched (`none`); otherwise the type-aware fields' DataTypeOIDs
are rewritten and, if anything changed, the packet payload is replaced. -/
def handleRowDescription (sessionPresent : Bool)
    (items : Option (List (Option ColumnEncryptionSetting)))
    (parsed : Except String (List Nat)) :
    HandlerOutcome × Option (List Nat) :=
  if sessionPresent then
    match items with
    | none => (.ok, none)
    | some settings =>
      match parsed with
      | .error _ => (.ok, none)   -- cant parse RowDescription packet: logged only
      | .ok fields =>
        if settings.length ≠ fields.length then (.ok, none)
        else
          let rewritten := List.zipWith rewriteField settings fields
          if rewritten.any (fun p => p.2) then (.ok, some (rewritten.map (fun p => p.1)))
          else (.ok, none)
  else (.ok, none)

/-- `handleParameterDescription` (pg_decryptor.go lines 856–896): with no
client session, no registered placeholder settings, or an unparsable
ParameterDescription payload, the handler returns success and leaves the
packet untouched; otherwise the type-aware parameters' OIDs are rewritten
(the placeholder settings are a map indexed by parameter position). -/
def handleParameterDescription (sessionPresent : Bool)
    (items : Option (Nat → Option ColumnEncryptionSetting))
    (parsed : Except String (List Nat)) :
    HandlerOutcome × Option (List Nat) :=
  if sessionPresent then
    match items with
    | none => (.ok, none)
    | some settings =>
      match parsed with
      | .error _ => (.ok, none)   -- cant parse ParameterDescription packet: logged only
      | .ok oids =>
        let rewritten := oids.mapIdx (fun i oid => rewriteField (settings i) oid)
        if rewritten.any (fun p => p.2) then (.ok, some (rewritten.map (fun p => p.1)))
        else (.ok, none)
  else (.ok, none)

/-- C5 counterexample: a RowDescription (or ParameterDescription) packet
whose payload cannot be parsed makes the handler return success with the
packet untouched, so the Serve step forwards the malformed packet unchanged
and stays in Serve — no ErrorResponse is synthesized and SkipResponse is
not entered. -/
theorem C5_malformed_description_counterexample :
    handleRowDescription true (some [some ⟨true, some 17⟩]) (.error "malformed") =
      (.ok, none) ∧
    handleParameterDescription true (some fun _ => none) (.error "malformed") =
      (.ok, none) ∧
    dbStep (fun _ => .ok) true true .stateServe (encodePacket ⟨84, [1]⟩) =
      .ok (⟨.stateServe, encodePacket ⟨84, [1]⟩, false, false, true, false⟩, []) := by
  refine ⟨rfl, rfl, ?_⟩
  rfl

/-- C5 amended: a malformed RowDescription or ParameterDescription packet in
the server→client direction is not answered with a synthesized
ErrorResponse; the handler logs the parse failure and returns success with
the packet untouched, so the ServerReader forwards the malformed packet to
the client unchanged and remains in Serve. -/
theorem C5_malformed_description_passthrough (sessionPresent : Bool)
    (rowItems : Option (List (Option ColumnEncryptionSetting)))
    (paramItems : Option (Nat → Option ColumnEncryptionSetting)) (e : String)
    (handle : DbPacket → HandlerOutcome) (s : List Nat) (pkt : DbPacket)
    (rest : List Nat)
    (hread : ReadPacket s = .ok (pkt, rest)) (hok : handle pkt = .ok) :
    handleRowDescription sessionPresent rowItems (.error e) = (.ok, none) ∧
    handleParameterDescription sessionPresent paramItems (.error e) = (.ok, none) ∧
    dbStep handle true true .stateServe s =
      .ok (⟨.stateServe, encodePacket pkt, false, false, true, false⟩, rest) := by
  refine ⟨?_, ?_, ?_⟩
  · cases sessionPresent <;> cases rowItems <;> simp [handleRowDescription]
  · cases sessionPresent <;> cases paramItems <;> simp [handleParameterDescription]
  · simp only [dbStep, hread, hok]

/-- Witness for the amended C5 at a concrete malformed packet. -/
theorem C5_malformed_description_passthrough_witness :
    handleRowDescription true (some []) (.error "bad") = (.ok, none) ∧
    handleParameterDescription true (some fun _ => none) (.error "bad") =
      (.ok, none) ∧
    dbStep (fun _ => .ok) true true .stateServe [116, 0, 0, 0, 4] =
      .ok (⟨.stateServe, encodePacket ⟨116, []⟩, false, false, true, false⟩, []) :=
  C5_malformed_description_passthrough true (some []) (some fun _ => none) "bad"
    (fun _ => .ok) [116, 0, 0, 0, 4] ⟨116, []⟩ [] rfl rfl

/-! ## DataRow column-decryption loop -/

/-- A DataRow column as `parseColumns` yields it: NULL (wire length -1) or
its data bytes. -/
structure PgColumn where
  isNull : Bool
  data : List Nat
deriving DecidableEq

/-- Modelled from the spec (§4.2, §8): `GetParameterFormatByIndex` — with no
result formats every column is Text (0), a single format applies to every
column, and otherwise the format at the column index is used (an error past
the end). -/
def GetParameterFormatByIndex (i : Nat) (formats : List Nat) : Except String Nat :=
  match formats with
  | [] => .ok 0
  | [f] => .ok f
  | _ =>
    match formats.get? i with
    | some f => .ok f
    | none => .error "parameter format out of range"

/-- The encryption-setting lookup guard of the column loop
(pg_decryptor.go lines 995–998):
`encryptionSettings != nil && i <= len(encryptionSettings) &&
encryptionSettings[i] != nil`. The conjuncts evaluate left to right, and the
third indexes the slice; `none` models the index-out-of-range panic that
indexing raises when `i` equals the slice length (the guard admits it). -/
def lookupEncryptionSetting (settings : Option (List (Option ColumnEncryptionSetting)))
    (i : Nat) : Option (Option ColumnEncryptionSetting) :=
  match settings with
  | none => some none
  | some l =>
    if i ≤ l.length then
      match l.get? i with
      | none => none                       -- index out of range: runtime panic
      | some (some s) => some (some s)
      | some none => some none
    else some none

/-- The per-column loop of `handleQueryDataPacket`
(pg_decryptor.go lines 978–1007), starting at column index `i`: NULL columns
are skipped with their bytes preserved; for each other column the bound
format is resolved, the encryption setting looked up (`none` result = the
loop panicked), and the data handed to the decryption observer, whose
result replaces the column data. Returns the rewritten columns and the
trace of `(index, data)` pairs handed to the observer. -/
def processColumns
    (decrypt : Nat → List Nat → Nat → Option ColumnEncryptionSetting → Except String (List Nat))
    (bindFormats : Option (List Nat))
    (encryptionSettings : Option (List (Option ColumnEncryptionSetting))) :
    Nat → List PgColumn → Option (Except String (List PgColumn × List (Nat × List Nat)))
  | _, [] => some (.ok ([], []))
  | i, col :: rest =>
    if col.isNull then
      -- NULL column: continue
      match processColumns decrypt bindFormats encryptionSettings (i + 1) rest with
      | none => none
      | some (.error e) => some (.error e)
      | some (.ok (cs, tr)) => some (.ok (col :: cs, tr))
    else
      match (match bindFormats with
             | none => Except.ok 0          -- default value Text
             | some fs => GetParameterFormatByIndex i fs) with
      | .error e => some (.error e)
      | .ok fmt =>
        match lookupEncryptionSetting encryptionSettings i with
        | none => none
        | some setting =>
          match decrypt i col.data fmt setting with
          | .error e => some (.error e)
          | .ok newData =>
            match processColumns decrypt bindFormats encryptionSettings (i + 1) rest with
            | none => none
            | some (.error e) => some (.error e)
            | some (.ok (cs, tr)) =>
              some (.ok (⟨false, newData⟩ :: cs, (i, col.data) :: tr))

/-- `handleQueryDataPacket` (pg_decryptor.go lines 944–1016), restricted to
its column-rewrite part: a packet with zero columns returns at once with
nothing touched; otherwise the column loop runs from index 0. -/
def handleQueryDataPacket
    (decrypt : Nat → List Nat → Nat → Option ColumnEncryptionSetting → Except String (List Nat))
    (bindFormats : Option (List Nat))
    (encryptionSettings : Option (List (Option ColumnEncryptionSetting)))
    (cols : List PgColumn) :
    Option (Except String (List PgColumn × List (Nat × List Nat))) :=
  if cols.length = 0 then some (.ok (cols, []))
  else processColumns decrypt bindFormats encryptionSettings 0 cols

theorem processColumns_spec
    (decrypt : Nat → List Nat → Nat → Option ColumnEncryptionSetting → Except String (List Nat))
    (bindFormats : Option (List Nat))
    (encryptionSettings : Option (List (Option ColumnEncryptionSetting))) :
    ∀ (cols : List PgColumn) (i : Nat) (newCols : List PgColumn)
      (trace : List (Nat × List Nat)),
      processColumns decrypt bindFormats encryptionSettings i cols =
        some (.ok (newCols, trace)) →
      (∀ j col, cols.get? j = some col → col.isNull = true →
        newCols.get? j = some col) ∧
      trace = ((cols.enumFrom i).filter (fun p => !p.2.isNull)).map
        (fun p => (p.1, p.2.data)) := by
  intro cols
  induction cols with
  | nil =>
    intro i newCols trace h
    simp only [processColumns, Option.some.injEq, Except.ok.injEq, Prod.mk.injEq] at h
    obtain ⟨rfl, rfl⟩ := h
    exact ⟨fun j col hj _ => by simp at hj, by simp [List.enumFrom]⟩
  | cons col rest ih =>
    intro i newCols trace h
    simp only [processColumns] at h
    by_cases hnull : col.isNull
    · rw [if_pos hnull] at h
      split at h
      · exact absurd h (by simp)
      · exact absurd h (by simp)
      · next cs tr hrec =>
        simp only [Option.some.injEq, Except.ok.injEq, Prod.mk.injEq] at h
        obtain ⟨rfl, rfl⟩ := h
        obtain ⟨ihPres, ihTrace⟩ := ih (i + 1) cs tr hrec
        refine ⟨fun j c hj hn => ?_, ?_⟩
        · cases j with
          | zero => simpa using hj
          | succ j =>
            simp only [List.get?_cons_succ] at hj ⊢
            exact ihPres j c hj hn
        · simp [List.enumFrom, hnull, ihTrace]
    · rw [if_neg hnull] at h
      split at h
      · exact absurd h (by simp)
      · split at h
        · exact absurd h (by simp)
        · split at h
          · exact absurd h (by simp)
          · split at h
            · exact absurd h (by simp)
            · exact absurd h (by simp)
            · next cs tr hrec =>
              simp only [Option.some.injEq, Except.ok.injEq, Prod.mk.injEq] at h
              obtain ⟨rfl, rfl⟩ := h
              obtain ⟨ihPres, ihTrace⟩ := ih (i + 1) cs tr hrec
              refine ⟨fun j c hj hn => ?_, ?_⟩
              · cases j with
                | zero =>
                  simp only [List.get?_cons_zero, Option.some.injEq] at hj
                  rw [← hj] at hn
                  exact absurd hn (by simpa using hnull)
                | succ j =>
                  simp only [List.get?_cons_succ] at hj ⊢
                  exact ihPres j c hj hn
              · simp [List.enumFrom, hnull, ihTrace]

/-- C7: the DataRow decryption loop never modifies untouchable columns — a
zero-column DataRow passes through entirely unchanged, every NULL column
(wire length -1) is skipped with its bytes preserved, and the columns
handed to the decryption observer are exactly the non-NULL ones, in order,
with their original data. -/
theorem C7_untouchable_columns
    (decrypt : Nat → List Nat → Nat → Option ColumnEncryptionSetting → Except String (List Nat))
    (bindFormats : Option (List Nat))
    (encryptionSettings : Option (List (Option ColumnEncryptionSetting))) :
    handleQueryDataPacket decrypt bindFormats encryptionSettings [] =
      some (.ok ([], [])) ∧
    (∀ cols newCols trace,
      handleQueryDataPacket decrypt bindFormats encryptionSettings cols =
        some (.ok (newCols, trace)) →
      (∀ j col, cols.get? j = some col → col.isNull = true →
        newCols.get? j = some col) ∧
      trace = ((cols.enumFrom 0).filter (fun p => !p.2.isNull)).map
        (fun p => (p.1, p.2.data))) := by
  refine ⟨rfl, fun cols newCols trace h => ?_⟩
  by_cases hz : cols.length = 0
  · rw [List.length_eq_zero] at hz
    subst hz
    simp only [handleQueryDataPacket, List.length_nil, if_pos rfl,
      Option.some.injEq, Except.ok.injEq, Prod.mk.injEq] at h
    obtain ⟨rfl, rfl⟩ := h
    exact ⟨fun j col hj _ => by simp at hj, by simp [List.enumFrom]⟩
  · rw [handleQueryDataPacket, if_neg hz] at h
    exact processColumns_spec decrypt bindFormats encryptionSettings cols 0
      newCols trace h

/-- Witness for C7 at a concrete two-column DataRow with a NULL column. -/
theorem C7_untouchable_columns_witness :
    handleQueryDataPacket (fun _ d _ _ => .ok (d ++ [9])) none none [] =
      some (.ok ([], [])) ∧
    ((∀ j col, [PgColumn.mk true [1], PgColumn.mk false [2]].get? j = some col →
        col.isNull = true →
        [PgColumn.mk true [1], PgColumn.mk false [2, 9]].get? j = some col) ∧
      [(1, [2])] =
        (([PgColumn.mk true [1], PgColumn.mk false [2]].enumFrom 0).filter
          (fun p => !p.2.isNull)).map (fun p => (p.1, p.2.data))) :=
  ⟨(C7_untouchable_columns (fun _ d _ _ => .ok (d ++ [9])) none none).1,
   (C7_untouchable_columns (fun _ d _ _ => .ok (d ++ [9])) none none).2
     [⟨true, [1]⟩, ⟨false, [2]⟩] [⟨true, [1]⟩, ⟨false, [2, 9]⟩] [(1, [2])] (by rfl)⟩

/-- C10 (code bug): the settings guard uses `i <= len(encryptionSettings)`,
so at a non-NULL column whose index equals the number of extracted settings
the third conjunct still indexes the slice — out of range. With a non-nil
empty settings slice and one non-NULL column the lookup, and with it the
whole column loop, panics instead of being total. -/
theorem C10_settings_lookup_out_of_range :
    lookupEncryptionSetting (some []) 0 = none ∧
    handleQueryDataPacket (fun _ d _ _ => .ok d) none (some [])
      [⟨false, [5]⟩] = none := by
  exact ⟨rfl, rfl⟩

/-! ## TLS upgrade dance -/

/-- `ClientStopTimeout` (pg_decryptor.go line 107): `time.Second * 2`. -/
def ClientStopTimeoutSeconds : Nat := 2

/-- The observable events of the TLS upgrade. -/
inductive TLSEvent where
  | stopFlagSet          -- proxy.stopClient = true
  | deadlineSetNow       -- clientConnection.SetDeadline(time.Now())
  | stopConfirmed        -- received on the ClientStopResponse rendezvous channel
  | stopTimeout          -- the ClientStopTimeout timer fired first
  | deadlineCleared      -- clientConnection.SetDeadline(time.Time zero)
  | sslAllowByteSent     -- packet.sendMessageType(): the 'S' byte forwarded
  | clientTLSHandshake   -- WrapClientConnection succeeded
  | dbTLSHandshake       -- WrapDBConnection succeeded
deriving DecidableEq

/-- `stopProxyClientConnection` (pg_decryptor.go lines 556–591),
parameterized by whether the ClientReader's confirmation arrives on the
rendezvous channel before the `ClientStopTimeout` timer: the event trace
and whether the stop succeeded. -/
def stopProxyClientConnection (confirmedWithinTimeout : Bool) :
    List TLSEvent × Bool :=
  if confirmedWithinTimeout then
    ([.stopFlagSet, .deadlineSetNow, .stopConfirmed, .deadlineCleared], true)
  else
    ([.stopFlagSet, .deadlineSetNow, .stopTimeout], false)

/-- `handleSSLRequest` (pg_decryptor.go lines 594–658), parameterized by the
rendezvous outcome and the two TLS-handshake outcomes: the event trace and
whether the upgrade succeeded. The 'S' byte is sent only after the stop
succeeded; a failure anywhere aborts with an error. -/
def handleSSLRequest (confirmedWithinTimeout clientTLSOk dbTLSOk : Bool) :
    List TLSEvent × Bool :=
  let stopResult := stopProxyClientConnection confirmedWithinTimeout
  if stopResult.2 then
    -- send the server response only after interrupting the client goroutine
    let trace := stopResult.1 ++ [.sslAllowByteSent]
    if clientTLSOk then
      let trace := trace ++ [.clientTLSHandshake]
      if dbTLSOk then (trace ++ [.dbTLSHandshake], true)
      else (trace, false)
    else (trace, false)
  else (stopResult.1, false)

/-- C9: the 'S' byte is forwarded to the client only after the ClientReader
confirmed its stop on the rendezvous channel (the confirmation strictly
precedes the send in every possible trace), the wait is bounded by the
2-second `ClientStopTimeout`, and if the confirmation does not arrive the
upgrade fails without ever sending the byte. -/
theorem C9_ssl_byte_after_client_stop (confirm clientTLSOk dbTLSOk : Bool) :
    ClientStopTimeoutSeconds = 2 ∧
    (TLSEvent.sslAllowByteSent ∈ (handleSSLRequest confirm clientTLSOk dbTLSOk).1 →
      TLSEvent.stopConfirmed ∈ (handleSSLRequest confirm clientTLSOk dbTLSOk).1 ∧
      List.indexOf TLSEvent.stopConfirmed
          (handleSSLRequest confirm clientTLSOk dbTLSOk).1 <
        List.indexOf TLSEvent.sslAllowByteSent
          (handleSSLRequest confirm clientTLSOk dbTLSOk).1) ∧
    (confirm = false →
      (handleSSLRequest confirm clientTLSOk dbTLSOk).2 = false ∧
      TLSEvent.sslAllowByteSent ∉ (handleSSLRequest confirm clientTLSOk dbTLSOk).1) := by
  cases confirm <;> cases clientTLSOk <;> cases dbTLSOk <;> decide

/-- Witness for C9: on a timed-out rendezvous the upgrade fails and the 'S'
byte is never sent. -/
theorem C9_ssl_byte_after_client_stop_witness :
    (handleSSLRequest false true true).2 = false ∧
    TLSEvent.sslAllowByteSent ∉ (handleSSLRequest false true true).1 :=
  (C9_ssl_byte_after_client_stop false true true).2.2 rfl

end Acra
